import Mathlib

/-
Verification development for the realtime voice-dialogue client
(repository: AI-for-Restaurnt).

Shallow embedding of:
  - src/function_tools.py        (tool registry and dispatcher)
  - src/realtime_local_asr.py    (RemoteVAD duplex engine, class RealtimeClient)
  - src/waste/tempCodeRunnerFile.py
                                 (LocalVAD engine variant, class RealtimeLocalASR,
                                  including the energy-based utterance segmenter)

Conventions of the embedding:
  - Python dict/JSON values are embedded as the inductive JValue.
  - External effects (datetime.now, random draws, data files read from disk)
    are passed in explicitly through an Env record; each Env field stands for
    the value the corresponding external call returned in one tool invocation.
  - A Python function that can raise is embedded as returning Except String;
    the String is the exception text str(e).
  - Machine floats of the source are embedded as exact rationals.
-/

namespace AIRestaurant

/-- JSON-like value, the embedding of the Python dict/list/str/num/bool/None
values that flow through function_tools.py and the websocket event payloads. -/
inductive JValue where
  | jnull
  | jbool (b : Bool)
  | jnum (q : ℚ)
  | jstr (s : String)
  | jarr (xs : List JValue)
  | jobj (fields : List (String × JValue))

/-- Python truthiness of a value, embedding `if x:` on a JSON-like value:
None, False, 0, empty string, empty list and empty dict are falsy. -/
def jTruthy : JValue → Bool
  | .jnull => false
  | .jbool b => b
  | .jnum q => decide (q ≠ 0)
  | .jstr s => !s.isEmpty
  | .jarr xs => !xs.isEmpty
  | .jobj fs => !fs.isEmpty

/-- Argument dictionary of a tool call (the Python `arguments` dict). -/
def ArgDict := List (String × JValue)

/-- Substring test on char lists, embedding the Python operator `needle in hay`
for strings. -/
def listContainsSub (needle : List Char) : List Char → Bool
  | [] => needle.isEmpty
  | c :: rest => needle.isPrefixOf (c :: rest) || listContainsSub needle rest

/-- String containment, embedding Python `needle in hay` on str values. -/
def strContains (hay needle : String) : Bool :=
  listContainsSub needle.toList hay.toList

/-- One row of the simulated weather draw: the values returned by the
random.choice / random.randint calls inside get_weather (external randomness,
threaded in explicitly). -/
structure WeatherDraw where
  condIdx : ℕ
  temperature : ℤ
  temperatureLow : ℤ
  humidity : ℤ
  windIdx : ℕ
  aqi : ℤ

/-- One dish of restaurant_menu.json as query_menu reads it: required keys
名称/价格/描述, optional keys 辣度 (dish.get) and 推荐 (dish.get with default
False). -/
structure Dish where
  name : String
  price : JValue
  desc : String
  spicy : Option String
  recommend : Bool

/-- The parsed restaurant_menu.json content: restaurant name and the 菜单
dict, a list of (category name, dishes) in dict order. -/
structure Menu where
  restaurantName : String
  categories : List (String × List Dish)

/-- One book of books_database.json as search_books reads it. -/
structure Book where
  title : String
  author : String
  category : String
  year : ℤ
  rating : ℚ
  pages : ℤ
  description : String
  keywords : List String

/-- The external world of one tool invocation: wall clock string, the random
draws, and the two data files (none embeds FileNotFoundError on open). -/
structure Env where
  nowStr : String
  weather : WeatherDraw
  menuData : Option Menu
  booksData : Option (List Book)

/-- Tool end_conversation of function_tools.py: returns the fixed
confirmation object; the timestamp field is the formatted datetime.now(). -/
def end_conversation (env : Env) : JValue :=
  .jobj [("status", .jstr "conversation_ended"),
         ("message", .jstr "好的，再见！祝你有美好的一天！"),
         ("timestamp", .jstr env.nowStr)]

/-- The weather_conditions list of get_weather. -/
def weather_conditions : List String := ["晴", "多云", "阴", "小雨", "大雨", "雪"]

/-- The wind choices of get_weather. -/
def windChoices : List String := ["微风", "和风", "清风"]

/-- Tool get_weather of function_tools.py: builds the simulated weather
object; condition is drawn from the first four conditions, the numeric fields
are the randint draws carried by env. -/
def get_weather (env : Env) (location date : JValue) : JValue :=
  .jobj [("location", location),
         ("date", date),
         ("condition", .jstr ((weather_conditions.take 4).getD (env.weather.condIdx % 4) "晴")),
         ("temperature", .jnum env.weather.temperature),
         ("temperature_low", .jnum env.weather.temperatureLow),
         ("humidity", .jnum env.weather.humidity),
         ("wind", .jstr (windChoices.getD (env.weather.windIdx % 3) "微风")),
         ("aqi", .jnum env.weather.aqi),
         ("suggestion", .jstr "适合出行，记得带把伞")]

/-- Python equality `dish.get("辣度") != spicy_level` negated: a str-or-None
left side compared with an arbitrary value; distinct types are unequal and do
not raise. -/
def pyEqOptStr (o : Option String) (v : JValue) : Bool :=
  match o, v with
  | some s, .jstr t => s == t
  | none, .jnull => true
  | _, _ => false

/-- Result row built by query_menu for one dish that passed all filters. -/
def menuEntry (cat : String) (dish : Dish) : JValue :=
  .jobj [("类别", .jstr cat),
         ("名称", .jstr dish.name),
         ("价格", dish.price),
         ("描述", .jstr dish.desc),
         ("辣度", .jstr (dish.spicy.getD "不辣")),
         ("推荐", .jbool dish.recommend)]

/-- The per-dish filter body of query_menu. Returns none when the dish is
skipped, some entry when kept, and raises (Except.error) when the keyword
filter applies Python `in` with a non-string keyword. -/
def queryMenuDish (keyword spicy_level recommend_only : JValue)
    (cat : String) (dish : Dish) : Except String (Option JValue) :=
  if jTruthy recommend_only && !dish.recommend then .ok none
  else if jTruthy spicy_level && !(pyEqOptStr dish.spicy spicy_level) then .ok none
  else if jTruthy keyword then
    match keyword with
    | .jstr k =>
        if !(strContains dish.name k) && !(strContains dish.desc k) then .ok none
        else .ok (some (menuEntry cat dish))
    | _ => .error "TypeError: in requires string as left operand"
  else .ok (some (menuEntry cat dish))

/-- Folds queryMenuDish over the dishes of one category, keeping order. -/
def queryMenuCat (keyword spicy_level recommend_only : JValue)
    (cat : String) : List Dish → Except String (List JValue)
  | [] => .ok []
  | d :: ds => do
      let hd ← queryMenuDish keyword spicy_level recommend_only cat d
      let tl ← queryMenuCat keyword spicy_level recommend_only cat ds
      pure (hd.toList ++ tl)

/-- Folds queryMenuCat over the selected categories. -/
def queryMenuCats (menu : Menu) (keyword spicy_level recommend_only : JValue) :
    List String → Except String (List JValue)
  | [] => .ok []
  | c :: cs => do
      let hd ← queryMenuCat keyword spicy_level recommend_only c
        (((menu.categories.lookup c).getD []))
      let tl ← queryMenuCats menu keyword spicy_level recommend_only cs
      pure (hd ++ tl)

/-- Tool query_menu of function_tools.py. A missing menu file returns the
structured 菜单文件未找到 error object (caught inside the tool itself);
category selection follows the source (a truthy category that is a key of
菜单 restricts to it, otherwise every category is scanned); at most ten
result rows are returned. -/
def query_menu (env : Env) (category keyword spicy_level recommend_only : JValue) :
    Except String JValue :=
  match env.menuData with
  | none => .ok (.jobj [("error", .jstr "菜单文件未找到")])
  | some menu =>
      let allCats := menu.categories.map Prod.fst
      let cats : List String :=
        if jTruthy category then
          match category with
          | .jstr c => if allCats.contains c then [c] else allCats
          | _ => allCats
        else allCats
      do
        let results ← queryMenuCats menu keyword spicy_level recommend_only cats
        pure (.jobj [("餐厅", .jstr menu.restaurantName),
                     ("结果数量", .jnum results.length),
                     ("菜品", .jarr (results.take 10))])

/-- Python equality between an arbitrary value and a str (a str equals only
an equal str; values of other types are unequal without raising); embeds
`book["category"] != category` negated. -/
def jEqStr (v : JValue) (s : String) : Bool :=
  match v with
  | .jstr t => t == s
  | _ => false

/-- The per-book filter of search_books. Returns some book when kept, none
when skipped, and raises when author or query is a truthy non-string (Python
`in` / .lower on a non-str) or min_rating is a truthy non-number (unordered
comparison). -/
def searchBooksFilter (query category author min_rating : JValue)
    (book : Book) : Except String (Option Book) :=
  if jTruthy category && !(jEqStr category book.category) then .ok none
  else if jTruthy author then
    match author with
    | .jstr a =>
        if !(strContains book.author a) then .ok none
        else searchBooksRating query min_rating book
    | _ => .error "TypeError: in requires string as left operand"
  else searchBooksRating query min_rating book
where
  /-- The min_rating and keyword stages of the filter. -/
  searchBooksRating (query min_rating : JValue) (book : Book) :
      Except String (Option Book) :=
    if jTruthy min_rating then
      match min_rating with
      | .jnum r =>
          if book.rating < r then .ok none
          else searchBooksQuery query book
      | _ => .error "TypeError: unsupported comparison"
    else searchBooksQuery query book
  /-- The keyword-search stage of the filter. -/
  searchBooksQuery (query : JValue) (book : Book) :
      Except String (Option Book) :=
    if jTruthy query then
      match query with
      | .jstr q =>
          let ql := q.toLower
          if strContains book.title.toLower ql
              || strContains book.author.toLower ql
              || strContains book.description.toLower ql
              || book.keywords.any (fun k => strContains k.toLower ql) then
            .ok (some book)
          else .ok none
      | _ => .error "AttributeError: value has no attribute lower"
    else .ok (some book)

/-- Folds searchBooksFilter over the book list, keeping order. -/
def searchBooksAll (query category author min_rating : JValue) :
    List Book → Except String (List Book)
  | [] => .ok []
  | b :: bs => do
      let hd ← searchBooksFilter query category author min_rating b
      let tl ← searchBooksAll query category author min_rating bs
      pure (hd.toList ++ tl)

/-- Result row built by search_books for one kept book. -/
def bookEntry (book : Book) : JValue :=
  .jobj [("书名", .jstr book.title),
         ("作者", .jstr book.author),
         ("类别", .jstr book.category),
         ("年份", .jnum book.year),
         ("评分", .jnum book.rating),
         ("页数", .jnum book.pages),
         ("简介", .jstr book.description),
         ("关键词", .jarr (book.keywords.map JValue.jstr))]

/-- Tool search_books of function_tools.py: filters the book database, sorts
the kept books by rating descending (Python stable sort with reverse=True),
and returns at most five rows. -/
def search_books (env : Env) (query category author min_rating : JValue) :
    Except String JValue :=
  match env.booksData with
  | none => .ok (.jobj [("error", .jstr "书籍数据库未找到")])
  | some books => do
      let kept ← searchBooksAll query category author min_rating books
      let sorted := kept.mergeSort (fun a b => decide (b.rating ≤ a.rating))
      pure (.jobj [("结果数量", .jnum sorted.length),
                   ("书籍", .jarr ((sorted.take 5).map bookEntry))])

/-- The key set of FUNCTION_MAP of function_tools.py. -/
def FUNCTION_MAP_names : List String :=
  ["end_conversation", "get_weather", "query_menu", "search_books"]

/-- True when every key of the argument dict is a declared parameter of the
called function; embeds the keyword-binding step of `func(**arguments)`,
which raises TypeError on an unexpected keyword argument (every parameter of
the four registered tools has a default, so unexpected keys are the only
binding failure). -/
def kwargsOk (allowed : List String) (args : ArgDict) : Bool :=
  List.all args (fun kv => allowed.contains kv.1)

/-- Argument lookup with the Python default value of the parameter. -/
def getParam (args : ArgDict) (k : String) (dflt : JValue) : JValue :=
  (List.lookup k args).getD dflt

/-- The TypeError text raised by a keyword-binding failure. -/
def kwargsErr : String := "TypeError: unexpected keyword argument"

/-- Embeds `FUNCTION_MAP[function_name](**arguments)`: keyword binding then
the tool body, as a fallible call. -/
def callFunction (env : Env) (name : String) (args : ArgDict) :
    Except String JValue :=
  match name with
  | "end_conversation" =>
      if kwargsOk [] args then .ok (end_conversation env) else .error kwargsErr
  | "get_weather" =>
      if kwargsOk ["location", "date"] args then
        .ok (get_weather env (getParam args "location" (.jstr "北京"))
          (getParam args "date" (.jstr "今天")))
      else .error kwargsErr
  | "query_menu" =>
      if kwargsOk ["category", "keyword", "spicy_level", "recommend_only"] args then
        query_menu env (getParam args "category" .jnull)
          (getParam args "keyword" .jnull)
          (getParam args "spicy_level" .jnull)
          (getParam args "recommend_only" (.jbool false))
      else .error kwargsErr
  | "search_books" =>
      if kwargsOk ["query", "category", "author", "min_rating"] args then
        search_books env (getParam args "query" .jnull)
          (getParam args "category" .jnull)
          (getParam args "author" .jnull)
          (getParam args "min_rating" .jnull)
      else .error kwargsErr
  | _ => .error "KeyError"

/-- execute_function of function_tools.py (lines 270 to 288): unknown names
give the structured 未知函数 result, any exception of the invoked tool is
caught and becomes the structured 函数执行错误 result; the dispatcher itself
is total. -/
def execute_function (env : Env) (function_name : String) (arguments : ArgDict) :
    JValue :=
  if !(FUNCTION_MAP_names.contains function_name) then
    .jobj [("error", .jstr ("未知函数: " ++ function_name))]
  else
    match callFunction env function_name arguments with
    | .ok r => r
    | .error e => .jobj [("error", .jstr ("函数执行错误: " ++ e))]

/-
Duplex engine embedding. The mutable attributes of RealtimeClient
(src/realtime_local_asr.py) and RealtimeLocalASR
(src/waste/tempCodeRunnerFile.py) that the message handler, the capture loop
and the keyboard interrupt controller touch are the same in both classes, so
one state record serves both variants. output_stream is true while an open
playback stream object exists (the teardown and rebuild of an interruption
reopens it, so it stays true across an interrupt).
-/

/-- Cross-task mutable state of one engine instance. -/
structure ClientState where
  is_running : Bool
  is_ai_speaking : Bool
  drop_audio_until_cancelled : Bool
  interrupt_flag : Bool
  output_stream : Bool
  session_id : Option String
deriving DecidableEq

/-- Inbound websocket events the handlers dispatch on. For
functionCallDone, args embeds the result of json.loads on the arguments
string: ok with the parsed dict, or error with the exception text when
json.loads raises. -/
inductive InEvent where
  | sessionCreated (sid : String)
  | sessionUpdated
  | speechStarted
  | speechStopped
  | transcriptionCompleted (t : String)
  | committed
  | responseCreated
  | responseDone
  | textDelta (d : String)
  | textDone (t : String)
  | audioDelta (b64 : String)
  | audioDone
  | functionCallArgsDelta
  | functionCallDone (callId : String) (name : String) (args : Except String (List (String × JValue)))
  | responseCancelled
  | errorEvent (msg : String)
  | unknownEvent (t : String)

/-- Observable side effects of the engine: a write of an audio payload to
the output device, the outbound protocol events, the fixed grace sleep, and
the playback-stream teardown plus rebuild. -/
inductive Out where
  | writeAudio (b64 : String)
  | sendItemCreateFunctionResult (callId : String) (output : JValue)
  | sendResponseCreate
  | sendAppendAudio (chunk : String)
  | sendCancel
  | sleepGrace
  | streamRebuild

/-- The audio payloads written to the output device within an output list. -/
def writesOf (outs : List Out) : List String :=
  outs.filterMap (fun o => match o with | .writeAudio b => some b | _ => none)

/-- The append-audio payloads sent within an output list. -/
def appendsOf (outs : List Out) : List String :=
  outs.filterMap (fun o => match o with | .sendAppendAudio c => some c | _ => none)

/-- The function-result conversation items sent within an output list. -/
def functionResultsOf (outs : List Out) : List (String × JValue) :=
  outs.filterMap (fun o => match o with
    | .sendItemCreateFunctionResult c r => some (c, r)
    | _ => none)

/-- True for the request-response protocol event. -/
def isResponseCreate : Out → Bool
  | .sendResponseCreate => true
  | _ => false

/-- True for the playback-stream teardown and rebuild effect. -/
def isStreamRebuild : Out → Bool
  | .streamRebuild => true
  | _ => false

/-- True for the fixed grace-period sleep effect. -/
def isSleepGrace : Out → Bool
  | .sleepGrace => true
  | _ => false

/-- The outputs strictly after the first grace sleep of an output list. -/
def afterGrace : List Out → List Out
  | [] => []
  | .sleepGrace :: rest => rest
  | _ :: rest => afterGrace rest

/-- The cancellation-failure test of the error branch of
RealtimeClient.handle_messages (line 358): the error message contains
Cancellation failed or contains no active response. -/
def isCancelFailureMsg (msg : String) : Bool :=
  strContains msg "Cancellation failed" || strContains msg "no active response"

/-- RealtimeClient._send_function_result (src/realtime_local_asr.py lines
150 to 169): clears the drop flag, sends the function_call_output
conversation item, then sends response.create. -/
def send_function_result (s : ClientState) (callId : String) (result : JValue) :
    ClientState × List Out :=
  ({ s with drop_audio_until_cancelled := false },
   [.sendItemCreateFunctionResult callId result, .sendResponseCreate])

/-- RealtimeLocalASR._send_function_result
(src/waste/tempCodeRunnerFile.py lines 258 to 274): identical sends, but it
does not touch the drop flag. -/
def send_function_result_local (s : ClientState) (callId : String) (result : JValue) :
    ClientState × List Out :=
  (s, [.sendItemCreateFunctionResult callId result, .sendResponseCreate])

/-- One iteration of the event loop of RealtimeClient.handle_messages
(src/realtime_local_asr.py lines 242 to 364). Returns the new state, the
emitted effects, and true when the handler returns (the end_conversation
path). -/
def handle_message (env : Env) (s : ClientState) (e : InEvent) :
    ClientState × List Out × Bool :=
  match e with
  | .sessionCreated sid => ({ s with session_id := some sid }, [], false)
  | .sessionUpdated => (s, [], false)
  | .speechStarted => (s, [], false)
  | .speechStopped => (s, [], false)
  | .transcriptionCompleted _ => (s, [], false)
  | .committed => (s, [], false)
  | .responseCreated => (s, [], false)
  | .responseDone => ({ s with is_ai_speaking := false }, [], false)
  | .textDelta _ => (s, [], false)
  | .textDone _ => (s, [], false)
  | .audioDelta b64 =>
      if s.drop_audio_until_cancelled then (s, [], false)
      else
        let s1 := { s with is_ai_speaking := true }
        if !b64.isEmpty && s.output_stream then (s1, [.writeAudio b64], false)
        else (s1, [], false)
  | .audioDone => ({ s with is_ai_speaking := false }, [], false)
  | .functionCallArgsDelta => (s, [], false)
  | .functionCallDone callId name argsOpt =>
      match argsOpt with
      | .ok args =>
          let result := execute_function env name args
          if name == "end_conversation" then
            let (s1, outs) := send_function_result s callId result
            ({ s1 with is_running := false }, outs ++ [.sleepGrace], true)
          else
            let (s1, outs) := send_function_result s callId result
            (s1, outs, false)
      | .error e =>
          let (s1, outs) := send_function_result s callId (.jobj [("error", .jstr e)])
          (s1, outs, false)
  | .responseCancelled =>
      ({ s with is_ai_speaking := false, drop_audio_until_cancelled := false }, [], false)
  | .errorEvent msg =>
      if isCancelFailureMsg msg then
        ({ s with drop_audio_until_cancelled := false }, [], false)
      else (s, [], false)
  | .unknownEvent _ => (s, [], false)

/-- One iteration of the event loop of RealtimeLocalASR.handle_messages
(src/waste/tempCodeRunnerFile.py lines 353 to 454). Differences from the
RemoteVAD engine: its _send_function_result does not clear the drop flag,
and its error branch only logs, clearing nothing. Event types it has no
branch for fall through ignored. -/
def handle_message_local (env : Env) (s : ClientState) (e : InEvent) :
    ClientState × List Out × Bool :=
  match e with
  | .sessionCreated sid => ({ s with session_id := some sid }, [], false)
  | .sessionUpdated => (s, [], false)
  | .responseCreated => (s, [], false)
  | .responseDone => ({ s with is_ai_speaking := false }, [], false)
  | .textDelta _ => (s, [], false)
  | .textDone _ => (s, [], false)
  | .audioDelta b64 =>
      if s.drop_audio_until_cancelled then (s, [], false)
      else
        let s1 := { s with is_ai_speaking := true }
        if !b64.isEmpty && s.output_stream then (s1, [.writeAudio b64], false)
        else (s1, [], false)
  | .audioDone => ({ s with is_ai_speaking := false }, [], false)
  | .functionCallArgsDelta => (s, [], false)
  | .functionCallDone callId name argsOpt =>
      match argsOpt with
      | .ok args =>
          let result := execute_function env name args
          if name == "end_conversation" then
            let (s1, outs) := send_function_result_local s callId result
            ({ s1 with is_running := false }, outs ++ [.sleepGrace], true)
          else
            let (s1, outs) := send_function_result_local s callId result
            (s1, outs, false)
      | .error e =>
          let (s1, outs) := send_function_result_local s callId (.jobj [("error", .jstr e)])
          (s1, outs, false)
  | .responseCancelled =>
      ({ s with is_ai_speaking := false, drop_audio_until_cancelled := false }, [], false)
  | .errorEvent _ => (s, [], false)
  | _ => (s, [], false)

/-- Runs a message handler over an inbound event list in order, stopping
when the handler returns; embeds the async-for of handle_messages on a
finite arrival sequence. -/
def processEvents (h : ClientState → InEvent → ClientState × List Out × Bool)
    (s : ClientState) : List InEvent → ClientState × List Out
  | [] => (s, [])
  | e :: rest =>
      match h s e with
      | (s1, outs, stop) =>
          if stop then (s1, outs)
          else
            let (s2, outs2) := processEvents h s1 rest
            (s2, outs ++ outs2)

/-- The per-frame body of RealtimeClient.start_audio_input
(src/realtime_local_asr.py lines 124 to 148): a captured frame is sent as
one input_audio_buffer.append event exactly when the AI is not speaking.
The effect carries the raw frame; base64 encoding is the external injective
encoding applied at the send. -/
def start_audio_input_frame (s : ClientState) (audio_data : String) : List Out :=
  if !s.is_ai_speaking then [.sendAppendAudio audio_data] else []

/-- One iteration of the interrupt-polling loop of
RealtimeClient.keyboard_listener (src/realtime_local_asr.py lines 199 to
240) with the interrupt flag observed set. sendOk is false when ws.send of
the response.cancel message raises; in that branch the source clears the
drop flag again. The teardown and rebuild of the output stream happens
before the send in either case. -/
def keyboard_interrupt_step (s : ClientState) (sendOk : Bool) :
    ClientState × List Out :=
  if s.interrupt_flag then
    let s1 := { s with drop_audio_until_cancelled := true, is_ai_speaking := false }
    let (s2, outs1) :=
      if s1.output_stream then (s1, [Out.streamRebuild]) else (s1, [])
    let (s3, outs2) :=
      if sendOk then (s2, [Out.sendCancel])
      else ({ s2 with drop_audio_until_cancelled := false }, ([] : List Out))
    ({ s3 with interrupt_flag := false }, outs1 ++ outs2)
  else (s, [])

/-
Utterance segmenter embedding (the local VAD of
src/waste/tempCodeRunnerFile.py: configuration constants, calculate_energy,
the VAD branch of start_audio_input, and _process_speech). A frame is the
list of signed 16-bit samples of one read of CHUNK_SIZE frames; timestamps
are the time.time() values observed, as exact rationals.
-/

namespace LocalASR

/-- SAMPLE_RATE of the local-ASR variant (16 kHz for Whisper). -/
def SAMPLE_RATE : ℕ := 16000

/-- CHUNK_SIZE: samples per captured frame. -/
def CHUNK_SIZE : ℕ := 1024

/-- ENERGY_THRESHOLD: RMS energy above which a frame counts as speech. -/
def ENERGY_THRESHOLD : ℚ := 300

/-- SILENCE_DURATION: seconds of silence that close an utterance. -/
def SILENCE_DURATION : ℚ := 1

/-- MIN_SPEECH_DURATION: minimum utterance length in seconds. -/
def MIN_SPEECH_DURATION : ℚ := 3 / 10

/-- The mean square of the samples of a frame, zero for an empty frame.
calculate_energy of the source returns the square root of this mean; the
embedding keeps the square, and every threshold comparison below compares
against the squared threshold, which is equivalent because the threshold is
nonnegative and the square root is monotone. -/
def calculate_energy_sq (audio_data : List ℤ) : ℚ :=
  if audio_data.isEmpty then 0
  else (((audio_data.map (fun x => x * x)).sum : ℤ) : ℚ) / (audio_data.length : ℚ)

/-- The speech test `calculate_energy(d) > ENERGY_THRESHOLD` of
start_audio_input, via the squared comparison. -/
def energyExceeds (audio_data : List ℤ) (threshold : ℚ) : Bool :=
  decide (threshold * threshold < calculate_energy_sq audio_data)

/-- The frame-count threshold of _process_speech:
int(SAMPLE_RATE * MIN_SPEECH_DURATION / CHUNK_SIZE). The float expression
of the source evaluates to 4.6875 exactly, and Python int() truncates a
positive float toward zero, hence the rational floor. -/
def min_speech_frames : ℕ :=
  (Int.floor ((SAMPLE_RATE : ℚ) * MIN_SPEECH_DURATION / (CHUNK_SIZE : ℚ))).toNat

/-- RealtimeLocalASR._process_speech (lines 194 to 229) restricted to its
segmentation decision: a buffer of fewer than min_speech_frames frames is
discarded (none); otherwise the buffered frames are joined and handed to the
Whisper transcribe call (some buffer identifies the handed audio). -/
def process_speech (speech_buffer : List (List ℤ)) : Option (List (List ℤ)) :=
  if speech_buffer.length < min_speech_frames then none
  else some speech_buffer

/-- The VAD attributes of RealtimeLocalASR that the capture loop mutates. -/
structure VadState where
  speech_buffer : List (List ℤ)
  is_speaking : Bool
  silence_start : Option ℚ
deriving DecidableEq

/-- The initial VAD attributes set in RealtimeLocalASR.init. -/
def vadInit : VadState := ⟨[], false, none⟩

/-- One iteration of the VAD branch of RealtimeLocalASR.start_audio_input
(lines 153 to 192): ai is is_ai_speaking at the read (user input processed
only when false), frame the captured samples, now the time.time() value of
this iteration. The second component is the buffer handed to the
transcriber when this frame closed an utterance long enough to keep. -/
def start_audio_input_step (s : VadState) (ai : Bool) (frame : List ℤ) (now : ℚ) :
    VadState × Option (List (List ℤ)) :=
  if ai then (s, none)
  else
    if energyExceeds frame ENERGY_THRESHOLD then
      ({ speech_buffer := s.speech_buffer ++ [frame],
         is_speaking := true,
         silence_start := none }, none)
    else
      if s.is_speaking then
        match s.silence_start with
        | none => ({ s with silence_start := some now }, none)
        | some t0 =>
            if SILENCE_DURATION < now - t0 then
              (⟨[], false, none⟩, process_speech s.speech_buffer)
            else (s, none)
      else
        ({ s with speech_buffer := s.speech_buffer ++ [frame] }, none)

/-- Runs the capture loop with the AI never speaking over a finite list of
timestamped frames, collecting every utterance handed to the transcriber. -/
def runVad (s : VadState) : List (List ℤ × ℚ) → VadState × List (List (List ℤ))
  | [] => (s, [])
  | (f, t) :: rest =>
      let (s1, u) := start_audio_input_step s false f t
      let (s2, us) := runVad s1 rest
      (s2, u.toList ++ us)

end LocalASR

/-
Concrete fixtures for witnesses and counterexamples.
-/

/-- A concrete external world: fixed clock, fixed random draws, both data
files absent. -/
def defaultEnv : Env :=
  ⟨"2024-01-01 12:00:00", ⟨0, 25, 15, 60, 0, 50⟩, none, none⟩

/-- A running engine state with the suppress flag set (as after a barge-in,
awaiting the cancellation confirmation). -/
def stateA : ClientState := ⟨true, true, true, false, true, some "sess_1"⟩

/-- A running engine state in normal listening: no suppression, AI silent. -/
def stateB : ClientState := ⟨true, false, false, false, true, none⟩

/-- A running engine state with a pending keyboard interrupt while the AI is
speaking. -/
def stateI : ClientState := ⟨true, true, false, true, true, none⟩

/-- A below-threshold frame: one read worth of silence samples. -/
def silFrame : List ℤ := List.replicate 4 0

/-- An above-threshold frame: constant samples of amplitude 1000, whose RMS
energy 1000 exceeds ENERGY_THRESHOLD = 300. -/
def spFrame : List ℤ := List.replicate 4 1000

/-- The frame sequence of the end-to-end segmentation scenario: 5 silence
frames, 10 speech frames, 20 silence frames, with consecutive time.time()
readings spaced by one frame duration (1024 samples at 16 kHz = 8 / 125 s,
so frame i carries timestamp 8 i / 125). -/
def scenarioC6 : List (List ℤ × ℚ) :=
  [(silFrame, 0),
   (silFrame, 8 / 125),
   (silFrame, 16 / 125),
   (silFrame, 24 / 125),
   (silFrame, 32 / 125),
   (spFrame, 40 / 125),
   (spFrame, 48 / 125),
   (spFrame, 56 / 125),
   (spFrame, 64 / 125),
   (spFrame, 72 / 125),
   (spFrame, 80 / 125),
   (spFrame, 88 / 125),
   (spFrame, 96 / 125),
   (spFrame, 104 / 125),
   (spFrame, 112 / 125),
   (silFrame, 120 / 125),
   (silFrame, 128 / 125),
   (silFrame, 136 / 125),
   (silFrame, 144 / 125),
   (silFrame, 152 / 125),
   (silFrame, 160 / 125),
   (silFrame, 168 / 125),
   (silFrame, 176 / 125),
   (silFrame, 184 / 125),
   (silFrame, 192 / 125),
   (silFrame, 200 / 125),
   (silFrame, 208 / 125),
   (silFrame, 216 / 125),
   (silFrame, 224 / 125),
   (silFrame, 232 / 125),
   (silFrame, 240 / 125),
   (silFrame, 248 / 125),
   (silFrame, 256 / 125),
   (silFrame, 264 / 125),
   (silFrame, 272 / 125)]

/-- A list of n consecutive below-threshold timestamped frames. -/
def silentFrames (n : ℕ) : List (List ℤ × ℚ) :=
  (List.range n).map (fun (i : ℕ) => (silFrame, (i : ℚ)))

/-
Helper lemmas.
-/

/-- Any message handler that leaves a suppressed state untouched on an
audio-delta event produces no device writes over a whole stream of
audio-delta events. -/
theorem audioDelta_run_no_writes
    (h : ClientState → InEvent → ClientState × List Out × Bool)
    (hstep : ∀ s p, s.drop_audio_until_cancelled = true →
      h s (.audioDelta p) = (s, [], false)) :
    ∀ (payloads : List String) (s : ClientState),
      s.drop_audio_until_cancelled = true →
      writesOf (processEvents h s (payloads.map InEvent.audioDelta)).2 = [] := by
  intro payloads
  induction payloads with
  | nil => intro s _; rfl
  | cons p rest ih =>
      intro s hs
      simp only [List.map_cons, processEvents, hstep s p hs]
      simpa [writesOf] using ih s hs

/-- A silence frame is below the energy threshold. -/
theorem silFrame_below : LocalASR.energyExceeds silFrame LocalASR.ENERGY_THRESHOLD = false := by
  norm_num [LocalASR.energyExceeds, LocalASR.calculate_energy_sq, silFrame,
    LocalASR.ENERGY_THRESHOLD, List.replicate_succ]

/-- A speech frame is above the energy threshold. -/
theorem spFrame_above : LocalASR.energyExceeds spFrame LocalASR.ENERGY_THRESHOLD = true := by
  norm_num [LocalASR.energyExceeds, LocalASR.calculate_energy_sq, spFrame,
    LocalASR.ENERGY_THRESHOLD, List.replicate_succ]

/-- The frame-count threshold of _process_speech evaluates to 4. -/
theorem min_speech_frames_eq : LocalASR.min_speech_frames = 4 := by
  have hf : Int.floor ((LocalASR.SAMPLE_RATE : ℚ) * LocalASR.MIN_SPEECH_DURATION
      / (LocalASR.CHUNK_SIZE : ℚ)) = 4 := by
    norm_num [LocalASR.SAMPLE_RATE, LocalASR.MIN_SPEECH_DURATION, LocalASR.CHUNK_SIZE]
  simp [LocalASR.min_speech_frames, hf]

/-- Every frame of a silentFrames list is below the energy threshold. -/
theorem silentFrames_below (n : ℕ) :
    ∀ p ∈ silentFrames n,
      LocalASR.energyExceeds p.1 LocalASR.ENERGY_THRESHOLD = false := by
  intro p hp
  simp only [silentFrames, List.mem_map] at hp
  obtain ⟨i, _, rfl⟩ := hp
  exact silFrame_below

/-- While not speaking and fed only below-threshold frames, the capture loop
retains every frame in the background buffer, stays not speaking, and hands
nothing to the transcriber. -/
theorem runVad_silent_retention :
    ∀ (l : List (List ℤ × ℚ)) (s : LocalASR.VadState),
      s.is_speaking = false →
      (∀ p ∈ l, LocalASR.energyExceeds p.1 LocalASR.ENERGY_THRESHOLD = false) →
      (LocalASR.runVad s l).1.speech_buffer = s.speech_buffer ++ l.map Prod.fst ∧
      (LocalASR.runVad s l).1.is_speaking = false ∧
      (LocalASR.runVad s l).2 = [] := by
  intro l
  induction l with
  | nil => intro s hs _; simp [LocalASR.runVad, hs]
  | cons p rest ih =>
      intro s hs hl
      have hp : LocalASR.energyExceeds p.1 LocalASR.ENERGY_THRESHOLD = false :=
        hl p (by simp)
      have hstep : LocalASR.start_audio_input_step s false p.1 p.2 =
          ({ s with speech_buffer := s.speech_buffer ++ [p.1] }, none) := by
        simp [LocalASR.start_audio_input_step, hp, hs]
      have hrest := ih { s with speech_buffer := s.speech_buffer ++ [p.1] } hs
        (fun q hq => hl q (by simp [hq]))
      simp only [LocalASR.runVad, hstep] at *
      refine ⟨?_, hrest.2.1, by simp [hrest.2.2]⟩
      simpa using hrest.1

/-
Claim theorems.
-/

/-- Claim C1: every response.audio.delta event received while the suppress
flag drop_audio_until_cancelled is set is dropped by the message handler
before any decode or write, so over any stream of such events nothing is
ever written to the output device; this holds in the RemoteVAD engine and in
the local-ASR variant alike. -/
theorem c1_audio_delta_dropped_while_suppressed
    (env : Env) (s : ClientState) (payloads : List String)
    (h : s.drop_audio_until_cancelled = true) :
    writesOf (processEvents (handle_message env) s
        (payloads.map InEvent.audioDelta)).2 = [] ∧
    writesOf (processEvents (handle_message_local env) s
        (payloads.map InEvent.audioDelta)).2 = [] := by
  constructor
  · exact audioDelta_run_no_writes (handle_message env)
      (fun s p hs => by simp [handle_message, hs]) payloads s h
  · exact audioDelta_run_no_writes (handle_message_local env)
      (fun s p hs => by simp [handle_message_local, hs]) payloads s h

/-- Witness for C1 at a concrete suppressed state and two audio payloads. -/
theorem c1_witness :
    writesOf (processEvents (handle_message defaultEnv) stateA
        (["YQ==", "Yg=="].map InEvent.audioDelta)).2 = [] ∧
    writesOf (processEvents (handle_message_local defaultEnv) stateA
        (["YQ==", "Yg=="].map InEvent.audioDelta)).2 = [] :=
  c1_audio_delta_dropped_while_suppressed defaultEnv stateA ["YQ==", "Yg=="] rfl

/-- Claim C2 counterexample: in the local-ASR engine variant
(RealtimeLocalASR.handle_messages), a cancellation-failure error event does
not clear the suppress flag, so the claim does not hold in every engine
variant: from a suppressed state the flag is still set after the event. -/
theorem c2_counterexample_local_variant_keeps_flag :
    isCancelFailureMsg "Cancellation failed: no active response found" = true ∧
    (handle_message_local defaultEnv stateA
        (.errorEvent "Cancellation failed: no active response found")
      ).1.drop_audio_until_cancelled = true :=
  ⟨by decide, rfl⟩

/-- Claim C2 (amended): in the RemoteVAD engine (RealtimeClient), processing
an error event whose message indicates a cancellation failure clears the
suppress flag. -/
theorem c2_cancel_failure_clears_flag_main
    (env : Env) (s : ClientState) (msg : String)
    (h : isCancelFailureMsg msg = true) :
    (handle_message env s (.errorEvent msg)).1.drop_audio_until_cancelled = false := by
  simp [handle_message, h]

/-- Witness for C2 at a concrete suppressed state and error message. -/
theorem c2_witness :
    (handle_message defaultEnv stateA
        (.errorEvent "Cancellation failed: no active response found")
      ).1.drop_audio_until_cancelled = false :=
  c2_cancel_failure_clears_flag_main defaultEnv stateA
    "Cancellation failed: no active response found" (by decide)

/-- Events whose processing clears the suppress flag in the RemoteVAD
engine: the cancellation confirmation, a cancellation-failure error, and any
function-call-arguments-done event (whose handling calls
_send_function_result, which resets the flag). -/
def clearsFlagEvent : InEvent → Bool
  | .responseCancelled => true
  | .errorEvent msg => isCancelFailureMsg msg
  | .functionCallDone _ _ _ => true
  | _ => false

/-- Claim C3 counterexample: a function-call-arguments-done event, which is
neither a cancellation confirmation nor a cancellation-failure error, clears
the suppress flag (via _send_function_result), so the flag does not remain
set under all other events. -/
theorem c3_counterexample_function_result_clears_flag :
    stateA.drop_audio_until_cancelled = true ∧
    (handle_message defaultEnv stateA
        (.functionCallDone "call_1" "get_weather" (.ok []))
      ).1.drop_audio_until_cancelled = false :=
  ⟨rfl, rfl⟩

/-- Claim C3 (amended): once set, the suppress flag survives every inbound
event except the cancellation confirmation, a cancellation-failure error,
and a function-call-arguments-done event; it also survives an interrupt
iteration whose cancel request is sent successfully. -/
theorem c3_suppress_flag_persists
    (env : Env) (s : ClientState) (e : InEvent)
    (h1 : s.drop_audio_until_cancelled = true)
    (h2 : clearsFlagEvent e = false) :
    (handle_message env s e).1.drop_audio_until_cancelled = true ∧
    (keyboard_interrupt_step s true).1.drop_audio_until_cancelled = true := by
  constructor
  · cases e <;> simp_all [handle_message, clearsFlagEvent]
  · cases hf : s.interrupt_flag <;> cases ho : s.output_stream <;>
      simp [keyboard_interrupt_step, hf, ho, h1]

/-- Witness for C3 at a concrete suppressed state and a response-done
event. -/
theorem c3_witness :
    (handle_message defaultEnv stateA InEvent.responseDone
      ).1.drop_audio_until_cancelled = true ∧
    (keyboard_interrupt_step stateA true).1.drop_audio_until_cancelled = true :=
  c3_suppress_flag_persists defaultEnv stateA InEvent.responseDone rfl rfl

/-- Claim C4: in the RemoteVAD engine, a captured frame read while the AI is
speaking causes no audio transmission, and a frame read while the AI is not
speaking causes exactly one outbound input_audio_buffer.append event
carrying that frame. -/
theorem c4_remote_vad_append_per_frame (s : ClientState) (frame : String) :
    (s.is_ai_speaking = true → start_audio_input_frame s frame = []) ∧
    (s.is_ai_speaking = false →
      start_audio_input_frame s frame = [Out.sendAppendAudio frame]) ∧
    (appendsOf (start_audio_input_frame s frame)).length =
      (if s.is_ai_speaking then 0 else 1) := by
  cases h : s.is_ai_speaking <;> simp [start_audio_input_frame, appendsOf, h]

/-- Witness for C4 at one speaking and one non-speaking concrete state. -/
theorem c4_witness :
    start_audio_input_frame stateA "frame0" = [] ∧
    start_audio_input_frame stateB "frame0" = [Out.sendAppendAudio "frame0"] :=
  ⟨(c4_remote_vad_append_per_frame stateA "frame0").1 rfl,
   (c4_remote_vad_append_per_frame stateB "frame0").2.1 rfl⟩

/-- Claim C5 counterexample: a closed utterance of exactly four frames lasts
4 * 1024 / 16000 = 0.256 seconds, which is shorter than
MIN_SPEECH_DURATION = 0.3 seconds, yet _process_speech hands it to the
transcriber, because the frame-count threshold int(16000 * 0.3 / 1024)
truncates 4.6875 down to 4. -/
theorem c5_counterexample_four_frame_utterance :
    LocalASR.process_speech (List.replicate 4 spFrame)
      = some (List.replicate 4 spFrame) ∧
    (4 : ℚ) * (LocalASR.CHUNK_SIZE : ℚ) / (LocalASR.SAMPLE_RATE : ℚ)
      < LocalASR.MIN_SPEECH_DURATION :=
  ⟨by simp [LocalASR.process_speech, min_speech_frames_eq],
   by norm_num [LocalASR.CHUNK_SIZE, LocalASR.SAMPLE_RATE, LocalASR.MIN_SPEECH_DURATION]⟩

/-- Claim C5 (amended): a closed utterance of fewer than
min_speech_frames = 4 frames (duration at most 0.192 seconds) is discarded
as noise and never handed to the transcriber; the effective minimum is 4
frames = 0.256 seconds rather than the nominal 0.3 seconds. -/
theorem c5_short_utterance_discarded (buf : List (List ℤ))
    (h : buf.length < LocalASR.min_speech_frames) :
    LocalASR.process_speech buf = none := by
  simp [LocalASR.process_speech, h]

/-- Witness for C5 at a concrete three-frame buffer. -/
theorem c5_witness :
    (List.replicate 3 spFrame).length < LocalASR.min_speech_frames ∧
    LocalASR.process_speech (List.replicate 3 spFrame) = none :=
  ⟨by simp [min_speech_frames_eq],
   c5_short_utterance_discarded (List.replicate 3 spFrame) (by simp [min_speech_frames_eq])⟩

set_option maxRecDepth 16384 in
set_option maxHeartbeats 1600000 in
/-- Claim C6: on the scenario of 5 below-threshold frames, 10
above-threshold frames, then 20 below-threshold frames spanning more than
SILENCE_DURATION, the segmenter (with the AI not speaking) hands exactly one
utterance to the transcriber, consisting of the 5 retained pre-roll frames
followed by all 10 above-threshold frames. -/
theorem c6_scenario_single_utterance :
    (LocalASR.runVad LocalASR.vadInit scenarioC6).2 =
      [List.replicate 5 silFrame ++ List.replicate 10 spFrame] := by
  norm_num [scenarioC6, LocalASR.runVad, LocalASR.start_audio_input_step,
    LocalASR.process_speech, min_speech_frames_eq, LocalASR.vadInit,
    silFrame_below, spFrame_above, LocalASR.SILENCE_DURATION,
    List.replicate_succ]

/-- Claim C7 counterexample: the background buffer filled while not speaking
has no size bound: for every candidate bound there is a run of consecutive
below-threshold frames after which the buffer holds more frames than the
bound, since nothing is ever evicted. -/
theorem c7_counterexample_background_buffer_unbounded :
    ¬ ∃ B : ℕ, ∀ n : ℕ,
      (LocalASR.runVad LocalASR.vadInit (silentFrames n)).1.speech_buffer.length ≤ B := by
  rintro ⟨B, hB⟩
  have h := (runVad_silent_retention (silentFrames (B + 1)) LocalASR.vadInit rfl
    (silentFrames_below (B + 1))).1
  have hlen : (LocalASR.runVad LocalASR.vadInit (silentFrames (B + 1))).1.speech_buffer.length
      = B + 1 := by
    have hsil : (silentFrames (B + 1)).length = B + 1 := by
      simp [silentFrames]
    rw [h, List.length_append, List.length_map, hsil]
    simp [LocalASR.vadInit]
  have := hB (B + 1)
  omega

/-- Claim C7 (amended): while not speaking, every below-threshold frame is
appended to the background buffer and every earlier frame is retained (no
eviction, no bound): after any run of consecutive below-threshold frames the
buffer is exactly the previous buffer followed by all those frames. -/
theorem c7_background_frames_all_retained
    (l : List (List ℤ × ℚ)) (s : LocalASR.VadState)
    (h1 : s.is_speaking = false)
    (h2 : ∀ p ∈ l, LocalASR.energyExceeds p.1 LocalASR.ENERGY_THRESHOLD = false) :
    (LocalASR.runVad s l).1.speech_buffer = s.speech_buffer ++ l.map Prod.fst ∧
    (LocalASR.runVad s l).1.is_speaking = false :=
  ⟨(runVad_silent_retention l s h1 h2).1, (runVad_silent_retention l s h1 h2).2.1⟩

/-- Witness for C7 at two concrete silence frames from the initial state. -/
theorem c7_witness :
    (LocalASR.runVad LocalASR.vadInit (silentFrames 2)).1.speech_buffer
      = LocalASR.vadInit.speech_buffer ++ (silentFrames 2).map Prod.fst ∧
    (LocalASR.runVad LocalASR.vadInit (silentFrames 2)).1.is_speaking = false :=
  c7_background_frames_all_retained (silentFrames 2) LocalASR.vadInit rfl
    (silentFrames_below 2)

/-- Claim C8 counterexample: a function-call-arguments-done event naming
end_conversation whose arguments string json.loads rejects takes the except
path: the engine sends the error function-result, keeps running, does not
return from the handler, and sends a further response.create (re-arming)
instead of shutting down. -/
theorem c8_counterexample_unparsed_arguments :
    (handle_message defaultEnv stateB
        (.functionCallDone "call_7" "end_conversation" (.error "Expecting value: line 1 column 1 (char 0)"))).1.is_running = true ∧
    (handle_message defaultEnv stateB
        (.functionCallDone "call_7" "end_conversation" (.error "Expecting value: line 1 column 1 (char 0)"))).2.2 = false ∧
    (handle_message defaultEnv stateB
        (.functionCallDone "call_7" "end_conversation" (.error "Expecting value: line 1 column 1 (char 0)"))).2.1.any isResponseCreate = true ∧
    (handle_message defaultEnv stateB
        (.functionCallDone "call_7" "end_conversation" (.error "Expecting value: line 1 column 1 (char 0)"))).2.1.any isSleepGrace = false :=
  ⟨rfl, rfl, rfl, rfl⟩

/-- Claim C8 (amended): for every function-call-arguments-done event naming
end_conversation whose arguments parse, the engine sends exactly one
function-result event, stops running, returns from the handler, and emits no
request-response event after the grace sleep. -/
theorem c8_end_conversation_shutdown (env : Env) (s : ClientState)
    (callId : String) (args : List (String × JValue)) :
    (functionResultsOf (handle_message env s
        (.functionCallDone callId "end_conversation" (.ok args))).2.1).length = 1 ∧
    (handle_message env s
        (.functionCallDone callId "end_conversation" (.ok args))).1.is_running = false ∧
    (handle_message env s
        (.functionCallDone callId "end_conversation" (.ok args))).2.2 = true ∧
    (handle_message env s
        (.functionCallDone callId "end_conversation" (.ok args))).2.1.any
      isSleepGrace = true ∧
    (afterGrace (handle_message env s
        (.functionCallDone callId "end_conversation" (.ok args))).2.1).any
      isResponseCreate = false := by
  simp [handle_message, send_function_result, functionResultsOf, afterGrace,
    isResponseCreate, isSleepGrace]

/-- Claim C9: the dispatcher execute_function is total; an unknown function
name yields the structured unknown-function error object, an exception
raised by a registered tool (such as an unexpected keyword argument) yields
the structured execution-error object of the same shape, and a successful
tool call yields the tool result unchanged. -/
theorem c9_execute_function_structured_errors
    (env : Env) (name : String) (args : ArgDict) :
    (FUNCTION_MAP_names.contains name = false →
      execute_function env name args
        = .jobj [("error", .jstr ("未知函数: " ++ name))]) ∧
    (∀ e, FUNCTION_MAP_names.contains name = true →
      callFunction env name args = .error e →
      execute_function env name args
        = .jobj [("error", .jstr ("函数执行错误: " ++ e))]) ∧
    (∀ r, FUNCTION_MAP_names.contains name = true →
      callFunction env name args = .ok r →
      execute_function env name args = r) := by
  refine ⟨fun h => ?_, fun e hc he => ?_, fun r hc hr => ?_⟩
  · unfold execute_function
    rw [h]
    simp
  · unfold execute_function
    rw [hc, he]
    simp
  · unfold execute_function
    rw [hc, hr]
    simp

/-- Witness for C9: an unknown name, a keyword-binding failure, and a
successful call, each at concrete inputs. -/
theorem c9_witness :
    execute_function defaultEnv "foo" []
      = .jobj [("error", .jstr ("未知函数: " ++ "foo"))] ∧
    execute_function defaultEnv "end_conversation" [("x", JValue.jnull)]
      = .jobj [("error", .jstr ("函数执行错误: " ++ kwargsErr))] ∧
    execute_function defaultEnv "end_conversation" [] = end_conversation defaultEnv :=
  ⟨(c9_execute_function_structured_errors defaultEnv "foo" []).1 rfl,
   (c9_execute_function_structured_errors defaultEnv "end_conversation"
      [("x", JValue.jnull)]).2.1 kwargsErr rfl rfl,
   (c9_execute_function_structured_errors defaultEnv "end_conversation" []).2.2
      (end_conversation defaultEnv) rfl rfl⟩

/-- Claim C10: when the cancel-response send raises during interrupt
handling, the controller clears the suppress flag even without a
confirmation, the playback stream teardown and rebuild is kept, and a
subsequent audio-delta event is written to the (rebuilt) output device
rather than dropped. -/
theorem c10_send_cancel_failure_clears_flag
    (env : Env) (s : ClientState) (pay : String)
    (h1 : s.interrupt_flag = true) (h2 : s.output_stream = true)
    (h3 : pay.isEmpty = false) :
    (keyboard_interrupt_step s false).1.drop_audio_until_cancelled = false ∧
    (keyboard_interrupt_step s false).2.any isStreamRebuild = true ∧
    (keyboard_interrupt_step s false).1.output_stream = true ∧
    writesOf (handle_message env (keyboard_interrupt_step s false).1
        (.audioDelta pay)).2.1 = [pay] := by
  have hk : keyboard_interrupt_step s false =
      (⟨s.is_running, false, false, false, true, s.session_id⟩,
       [Out.streamRebuild]) := by
    cases s
    simp_all [keyboard_interrupt_step]
  rw [hk]
  refine ⟨rfl, rfl, rfl, ?_⟩
  simp [handle_message, writesOf, h3]

/-- Witness for C10 at a concrete interrupt-pending state and payload. -/
theorem c10_witness :
    (keyboard_interrupt_step stateI false).1.drop_audio_until_cancelled = false ∧
    (keyboard_interrupt_step stateI false).2.any isStreamRebuild = true ∧
    (keyboard_interrupt_step stateI false).1.output_stream = true ∧
    writesOf (handle_message defaultEnv (keyboard_interrupt_step stateI false).1
        (.audioDelta "QUJD")).2.1 = ["QUJD"] :=
  c10_send_cancel_failure_clears_flag defaultEnv stateI "QUJD" rfl rfl rfl

end AIRestaurant
